import Mathlib

/-!
Verification of the oxifoc BLDC motor-control core.

The definitions below are a shallow embedding of the Rust sources:
- `CommutationStep` and its operations from `src/device/src/motor/six_step.rs`;
- `MotorPwm` and its operations from `src/device/src/motor/pwm.rs`
  (hardware PWM channel registers are modelled as three natural-number
  duty fields; the u16/u32 casts in the source appear as `% 65536`);
- `MotorController`, the global status atomics and the command handlers
  from `src/device/src/motor/mod.rs` (the three `AtomicU8` statics
  `MOTOR_STATE`, `MOTOR_DUTY`, `MOTOR_STEP` are carried as fields of the
  controller state, and state is passed explicitly);
- the motor-control loop body from `src/device/src/main.rs`, with the
  bounded command channel modelled as a list drained from the front.
-/

/-- Six-step commutation state (`CommutationStep` in six_step.rs). -/
inductive CommutationStep where
  | Step0
  | Step1
  | Step2
  | Step3
  | Step4
  | Step5
deriving DecidableEq, Repr

/-- `CommutationStep::next`: advance to the next commutation step. -/
def CommutationStep.next : CommutationStep → CommutationStep
  | .Step0 => .Step1
  | .Step1 => .Step2
  | .Step2 => .Step3
  | .Step3 => .Step4
  | .Step4 => .Step5
  | .Step5 => .Step0

/-- `CommutationStep::as_u8`: the step number 0-5. -/
def CommutationStep.as_u8 : CommutationStep → Nat
  | .Step0 => 0
  | .Step1 => 1
  | .Step2 => 2
  | .Step3 => 3
  | .Step4 => 4
  | .Step5 => 5

/-- `CommutationStep::get_phase_states`: returns
`(ph_a_en, ph_b_en, ph_c_en, ph_a_high, ph_b_high, ph_c_high)`. -/
def CommutationStep.get_phase_states :
    CommutationStep → Bool × Bool × Bool × Bool × Bool × Bool
  | .Step0 => (true, true, false, true, false, false)
  | .Step1 => (true, false, true, true, false, false)
  | .Step2 => (false, true, true, false, true, false)
  | .Step3 => (true, true, false, false, true, false)
  | .Step4 => (true, false, true, false, false, true)
  | .Step5 => (false, true, true, false, false, true)

/-- TIM1 PWM channel identifiers (`Channel::Ch1/Ch2/Ch3`). -/
inductive Channel where
  | Ch1
  | Ch2
  | Ch3
deriving DecidableEq, Repr

/-- `MotorPwmConfig` from pwm.rs: pwm_freq in Hz, dead_time_ns in
nanoseconds, max_duty_percent in 0-100. -/
structure MotorPwmConfig where
  pwm_freq : Nat
  dead_time_ns : Nat
  max_duty_percent : Nat
deriving DecidableEq, Repr

/-- `MotorPwm` state: the cached `max_duty` and `duty_limit` fields plus
the duty registers of the three hardware channels (the effect of
`pwm.set_duty`). -/
structure MotorPwm where
  max_duty : Nat
  duty_limit : Nat
  duty_ch1 : Nat
  duty_ch2 : Nat
  duty_ch3 : Nat
deriving DecidableEq, Repr

/-- Effect of `self.pwm.set_duty(channel, duty)` on the modelled duty
registers. -/
def MotorPwm.set_duty (p : MotorPwm) (ch : Channel) (d : Nat) : MotorPwm :=
  match ch with
  | .Ch1 => { p with duty_ch1 := d }
  | .Ch2 => { p with duty_ch2 := d }
  | .Ch3 => { p with duty_ch3 := d }

/-- Read back a modelled channel duty register. -/
def MotorPwm.get_duty (p : MotorPwm) (ch : Channel) : Nat :=
  match ch with
  | .Ch1 => p.duty_ch1
  | .Ch2 => p.duty_ch2
  | .Ch3 => p.duty_ch3

/-- Result of `MotorPwm::new`: the constructed driver state, the dead
time written by `set_dead_time`, and the kHz value passed to the timer. -/
structure PwmInit where
  pwm : MotorPwm
  dead_time_ticks : Nat
  freq_khz : Nat
deriving DecidableEq, Repr

/-- `MotorPwm::new` (pwm.rs lines 36-109), after the pin setup: the
hardware reports `max_duty`; `dead_time_ticks = max_duty / 512` is
written to the timer; `duty_limit = (max_duty as u32 *
max_duty_percent as u32 / 100) as u16`.  `d1 d2 d3` are the channel
duty registers as the hardware left them (the constructor does not
write them, it only enables the channels). -/
def MotorPwm.init (config : MotorPwmConfig) (max_duty d1 d2 d3 : Nat) : PwmInit :=
  let dead_time_ticks := max_duty / 512
  let duty_limit := (max_duty * config.max_duty_percent / 100) % 65536
  { pwm := { max_duty := max_duty, duty_limit := duty_limit,
             duty_ch1 := d1, duty_ch2 := d2, duty_ch3 := d3 }
    dead_time_ticks := dead_time_ticks
    freq_khz := config.pwm_freq / 1000 }

/-- `MotorPwm::set_phase_duty`: clamp the percent to 100, scale by
`max_duty` in u32 then cast to u16, clamp to `duty_limit`, write the
channel register. -/
def MotorPwm.set_phase_duty (p : MotorPwm) (ch : Channel) (duty_percent : Nat) :
    MotorPwm :=
  let dp := min duty_percent 100
  let duty := (p.max_duty * dp / 100) % 65536
  let duty := min duty p.duty_limit
  p.set_duty ch duty

/-- `MotorPwm::disable_phase`: set the channel to 0 duty (channel stays
enabled). -/
def MotorPwm.disable_phase (p : MotorPwm) (ch : Channel) : MotorPwm :=
  p.set_duty ch 0

/-- `MotorPwm::apply_commutation` (pwm.rs lines 131-155). -/
def MotorPwm.apply_commutation (p : MotorPwm) (duty_percent : Nat)
    (ph_a_en ph_b_en ph_c_en : Bool) : MotorPwm :=
  let p := if ph_a_en then p.set_phase_duty .Ch1 duty_percent
           else p.disable_phase .Ch1
  let p := if ph_b_en then p.set_phase_duty .Ch2 duty_percent
           else p.disable_phase .Ch2
  if ph_c_en then p.set_phase_duty .Ch3 duty_percent
  else p.disable_phase .Ch3

/-- `MotorPwm::emergency_stop`: all three phases to 0 duty. -/
def MotorPwm.emergency_stop (p : MotorPwm) : MotorPwm :=
  ((p.disable_phase .Ch1).disable_phase .Ch2).disable_phase .Ch3

/-- `MotorState` from the protocol crate. -/
inductive MotorState where
  | Stopped
  | Running
  | Error
deriving DecidableEq, Repr

/-- The `state as u8` discriminant stored into the `MOTOR_STATE` atomic. -/
def MotorState.as_u8 : MotorState → Nat
  | .Stopped => 0
  | .Running => 1
  | .Error => 2

/-- `get_motor_state` (mod.rs lines 47-53): decode the `MOTOR_STATE`
atomic; any value other than 0 or 1 reads as Error. -/
def get_motor_state (g : Nat) : MotorState :=
  match g with
  | 0 => .Stopped
  | 1 => .Running
  | _ => .Error

/-- `MotorCommand` from the protocol crate (duty is a u8 percentage). -/
inductive MotorCommand where
  | Stop
  | Start (duty : Nat)
  | SetSpeed (duty : Nat)
deriving DecidableEq, Repr

/-- `MotorStatus` from the protocol crate. -/
structure MotorStatus where
  state : MotorState
  duty : Nat
  step : Nat
deriving DecidableEq, Repr

/-- `MotorController` state together with the three global status
atomics it writes (`MOTOR_STATE`, `MOTOR_DUTY`, `MOTOR_STEP`).  The
fixed `commutation_period_ms` field does not affect any modelled
operation and is carried verbatim. -/
structure MotorController where
  pwm : MotorPwm
  current_step : CommutationStep
  target_duty : Nat
  commutation_period_ms : Nat
  motor_state_g : Nat
  motor_duty_g : Nat
  motor_step_g : Nat
deriving DecidableEq, Repr

/-- `get_motor_status` (mod.rs lines 76-82): snapshot of the three
status atomics. -/
def get_motor_status (c : MotorController) : MotorStatus :=
  { state := get_motor_state c.motor_state_g
    duty := c.motor_duty_g
    step := c.motor_step_g }

/-- `MotorController::start` (mod.rs lines 141-152): clamp the duty to
100, publish duty and Running state, reset the step to 0. -/
def MotorController.start (c : MotorController) (duty : Nat) : MotorController :=
  let duty := min duty 100
  { c with
    target_duty := duty
    motor_duty_g := duty
    motor_state_g := MotorState.Running.as_u8
    current_step := .Step0
    motor_step_g := 0 }

/-- `MotorController::stop` (mod.rs lines 155-161): zero the target
duty, emergency-stop the PWM, publish Stopped state and 0 duty. -/
def MotorController.stop (c : MotorController) : MotorController :=
  { c with
    target_duty := 0
    pwm := c.pwm.emergency_stop
    motor_state_g := MotorState.Stopped.as_u8
    motor_duty_g := 0 }

/-- `MotorController::set_speed` (mod.rs lines 164-169): clamp the duty
to 100, update the target and the published duty. -/
def MotorController.set_speed (c : MotorController) (duty : Nat) : MotorController :=
  let duty := min duty 100
  { c with
    target_duty := duty
    motor_duty_g := duty }

/-- `MotorController::handle_command` (mod.rs lines 123-138). -/
def MotorController.handle_command (c : MotorController) (cmd : MotorCommand) :
    MotorController :=
  match cmd with
  | .Stop => c.stop
  | .Start duty => c.start duty
  | .SetSpeed duty => c.set_speed duty

/-- `MotorController::commutate` (mod.rs lines 172-196): if the global
state is not Running, emergency-stop and return; otherwise apply the
current step's pattern at the target duty, publish the step, advance. -/
def MotorController.commutate (c : MotorController) : MotorController :=
  if get_motor_state c.motor_state_g ≠ MotorState.Running then
    { c with pwm := c.pwm.emergency_stop }
  else
    let ph := c.current_step.get_phase_states
    { c with
      pwm := c.pwm.apply_commutation c.target_duty ph.1 ph.2.1 ph.2.2.1
      motor_step_g := c.current_step.as_u8
      current_step := c.current_step.next }

/-- One iteration of the `motor_control_task` loop body (main.rs lines
378-390): `try_receive` yields the front of the queue when nonempty,
that command is handled, then `commutate` runs; when the queue is
empty, `commutate` runs alone. -/
def motor_control_iter (c : MotorController) (q : List MotorCommand) :
    MotorController × List MotorCommand :=
  match q with
  | [] => (c.commutate, [])
  | cmd :: rest => ((c.handle_command cmd).commutate, rest)

/-- Count of enabled phases in a step's pattern. -/
def CommutationStep.enabled_count (s : CommutationStep) : Nat :=
  let (a, b, c, _, _, _) := s.get_phase_states
  (if a then 1 else 0) + (if b then 1 else 0) + (if c then 1 else 0)

/-- Auxiliary: scaling a duty register value by a percentage at most 100
never exceeds the original value. -/
theorem duty_scale_le (md dp : Nat) (h : dp ≤ 100) : md * dp / 100 ≤ md := by
  have h2 : md * dp ≤ md * 100 := Nat.mul_le_mul_left md h
  omega

/-- Auxiliary: decoding the discriminant written by
`set_motor_state(MotorState::Running)` yields Running. -/
theorem get_state_one : get_motor_state 1 = MotorState.Running := rfl

/-- C2: for every commutation step, `get_phase_states` enables exactly
two of the three phases, leaving the third floating. -/
theorem pattern_two_enabled (s : CommutationStep) : s.enabled_count = 2 := by
  cases s <;> rfl

/-- C9: the dead time programmed by `MotorPwm::new` is `max_duty / 512`
timer ticks for every configuration; the `dead_time_ns` field has no
effect, so two configurations differing only in `dead_time_ns` program
the identical dead time. -/
theorem dead_time_ignores_ns (f n1 n2 mp md d1 d2 d3 : Nat) :
    (MotorPwm.init ⟨f, n1, mp⟩ md d1 d2 d3).dead_time_ticks = md / 512 ∧
    (MotorPwm.init ⟨f, n1, mp⟩ md d1 d2 d3).dead_time_ticks
      = (MotorPwm.init ⟨f, n2, mp⟩ md d1 d2 d3).dead_time_ticks ∧
    MotorPwm.init ⟨f, n1, mp⟩ md d1 d2 d3 = MotorPwm.init ⟨f, n2, mp⟩ md d1 d2 d3 := by
  refine ⟨rfl, rfl, rfl⟩

/-- C5: after handling `Start{duty=50}` the step is `Step0`; six ticks
later the controller's step is `Step0` again, so the next tick applies
the same phase pattern as the first tick did; and `next` applied six
times to any step returns that step. -/
theorem six_ticks_return_to_step0 (c : MotorController) (s : CommutationStep) :
    (c.handle_command (.Start 50)).current_step = CommutationStep.Step0 ∧
    ((((((c.handle_command
        (.Start 50)).commutate).commutate).commutate).commutate).commutate).commutate.current_step
      = CommutationStep.Step0 ∧
    s.next.next.next.next.next.next = s := by
  refine ⟨rfl, ?_, ?_⟩
  · have hs : ∀ d : MotorController, d.motor_state_g = 1 →
        d.commutate.current_step = d.current_step.next ∧
        d.commutate.motor_state_g = 1 := by
      intro d hd
      simp [MotorController.commutate, hd, get_state_one]
    have h1 := hs (c.handle_command (.Start 50)) rfl
    have h2 := hs _ h1.2
    have h3 := hs _ h2.2
    have h4 := hs _ h3.2
    have h5 := hs _ h4.2
    have h6 := hs _ h5.2
    rw [h6.1, h5.1, h4.1, h3.1, h2.1, h1.1]
    rfl
  · cases s <;> rfl

/-- C1: for every duty_percent in [0,100] and every combination of
enable flags, `apply_commutation` on a driver built by `MotorPwm::new`
sets each enabled channel's duty to
`min(duty_limit, max_duty * duty_percent / 100)` — in particular never
above `duty_limit = max_duty * max_duty_percent / 100` computed once at
init — and sets each disabled channel's duty to 0. -/
theorem apply_commutation_clamped (cfg : MotorPwmConfig) (md d1 d2 d3 dp : Nat)
    (a b c : Bool) (hmd : md < 65536) (hmp : cfg.max_duty_percent ≤ 100)
    (hdp : dp ≤ 100) :
    (MotorPwm.init cfg md d1 d2 d3).pwm.duty_limit
        = md * cfg.max_duty_percent / 100 ∧
    ((MotorPwm.init cfg md d1 d2 d3).pwm.apply_commutation dp a b c).duty_ch1
        = (if a then min (md * cfg.max_duty_percent / 100) (md * dp / 100) else 0) ∧
    ((MotorPwm.init cfg md d1 d2 d3).pwm.apply_commutation dp a b c).duty_ch2
        = (if b then min (md * cfg.max_duty_percent / 100) (md * dp / 100) else 0) ∧
    ((MotorPwm.init cfg md d1 d2 d3).pwm.apply_commutation dp a b c).duty_ch3
        = (if c then min (md * cfg.max_duty_percent / 100) (md * dp / 100) else 0) ∧
    ((MotorPwm.init cfg md d1 d2 d3).pwm.apply_commutation dp a b c).duty_ch1
        ≤ md * cfg.max_duty_percent / 100 ∧
    ((MotorPwm.init cfg md d1 d2 d3).pwm.apply_commutation dp a b c).duty_ch2
        ≤ md * cfg.max_duty_percent / 100 ∧
    ((MotorPwm.init cfg md d1 d2 d3).pwm.apply_commutation dp a b c).duty_ch3
        ≤ md * cfg.max_duty_percent / 100 := by
  have hlim : (md * cfg.max_duty_percent / 100) % 65536
      = md * cfg.max_duty_percent / 100 :=
    Nat.mod_eq_of_lt (lt_of_le_of_lt (duty_scale_le md _ hmp) hmd)
  have hsc : (md * dp / 100) % 65536 = md * dp / 100 :=
    Nat.mod_eq_of_lt (lt_of_le_of_lt (duty_scale_le md _ hdp) hmd)
  have hmin : min dp 100 = dp := min_eq_left hdp
  cases a <;> cases b <;> cases c <;>
    simp [MotorPwm.init, MotorPwm.apply_commutation, MotorPwm.set_phase_duty,
      MotorPwm.disable_phase, MotorPwm.set_duty, hmin, hlim, hsc,
      Nat.min_comm]

/-- Witness for C1 at a concrete configuration: max_duty 1000, 15%
limit, duty request 50%, phases A and B enabled, C disabled. -/
theorem apply_commutation_clamped_witness :
    (1000 < 65536 ∧
      (⟨20000, 2000, 15⟩ : MotorPwmConfig).max_duty_percent ≤ 100 ∧
      50 ≤ 100) ∧
    (MotorPwm.init ⟨20000, 2000, 15⟩ 1000 7 7 7).pwm.duty_limit
        = 1000 * (⟨20000, 2000, 15⟩ : MotorPwmConfig).max_duty_percent / 100 ∧
    ((MotorPwm.init ⟨20000, 2000, 15⟩ 1000 7 7 7).pwm.apply_commutation 50 true true false).duty_ch1
        = (if true then
            min (1000 * (⟨20000, 2000, 15⟩ : MotorPwmConfig).max_duty_percent / 100)
              (1000 * 50 / 100) else 0) ∧
    ((MotorPwm.init ⟨20000, 2000, 15⟩ 1000 7 7 7).pwm.apply_commutation 50 true true false).duty_ch2
        = (if true then
            min (1000 * (⟨20000, 2000, 15⟩ : MotorPwmConfig).max_duty_percent / 100)
              (1000 * 50 / 100) else 0) ∧
    ((MotorPwm.init ⟨20000, 2000, 15⟩ 1000 7 7 7).pwm.apply_commutation 50 true true false).duty_ch3
        = (if false then
            min (1000 * (⟨20000, 2000, 15⟩ : MotorPwmConfig).max_duty_percent / 100)
              (1000 * 50 / 100) else 0) ∧
    ((MotorPwm.init ⟨20000, 2000, 15⟩ 1000 7 7 7).pwm.apply_commutation 50 true true false).duty_ch1
        ≤ 1000 * (⟨20000, 2000, 15⟩ : MotorPwmConfig).max_duty_percent / 100 ∧
    ((MotorPwm.init ⟨20000, 2000, 15⟩ 1000 7 7 7).pwm.apply_commutation 50 true true false).duty_ch2
        ≤ 1000 * (⟨20000, 2000, 15⟩ : MotorPwmConfig).max_duty_percent / 100 ∧
    ((MotorPwm.init ⟨20000, 2000, 15⟩ 1000 7 7 7).pwm.apply_commutation 50 true true false).duty_ch3
        ≤ 1000 * (⟨20000, 2000, 15⟩ : MotorPwmConfig).max_duty_percent / 100 :=
  ⟨⟨by decide, by decide, by decide⟩,
    apply_commutation_clamped ⟨20000, 2000, 15⟩ 1000 7 7 7 50 true true false
      (by decide) (by decide) (by decide)⟩

/-- C3: whenever `commutate` runs with the motor state not Running, it
performs an emergency stop — forcing all three channel duties to 0 —
and returns without applying a pattern or advancing the step; this
holds on every non-Running tick, not only on a transition edge. -/
theorem commutate_not_running_stops (c : MotorController)
    (h : get_motor_state c.motor_state_g ≠ MotorState.Running) :
    c.commutate = { c with pwm := c.pwm.emergency_stop } ∧
    c.commutate.pwm.duty_ch1 = 0 ∧
    c.commutate.pwm.duty_ch2 = 0 ∧
    c.commutate.pwm.duty_ch3 = 0 ∧
    c.commutate.current_step = c.current_step ∧
    c.commutate.motor_step_g = c.motor_step_g := by
  have he : c.commutate = { c with pwm := c.pwm.emergency_stop } := by
    simp [MotorController.commutate, h]
  refine ⟨he, ?_, ?_, ?_, ?_, ?_⟩ <;> rw [he] <;> exact rfl

/-- Witness for C3 at a concrete controller whose global state atomic
holds 0 (Stopped) with stale nonzero duties in the channel registers. -/
theorem commutate_not_running_stops_witness :
    get_motor_state (⟨⟨1000, 150, 70, 80, 90⟩, .Step3, 40, 500, 0, 40, 3⟩ :
        MotorController).motor_state_g ≠ MotorState.Running ∧
    ((⟨⟨1000, 150, 70, 80, 90⟩, .Step3, 40, 500, 0, 40, 3⟩ :
        MotorController).commutate
      = { (⟨⟨1000, 150, 70, 80, 90⟩, .Step3, 40, 500, 0, 40, 3⟩ :
            MotorController) with
          pwm := (⟨⟨1000, 150, 70, 80, 90⟩, .Step3, 40, 500, 0, 40, 3⟩ :
            MotorController).pwm.emergency_stop } ∧
    (⟨⟨1000, 150, 70, 80, 90⟩, .Step3, 40, 500, 0, 40, 3⟩ :
        MotorController).commutate.pwm.duty_ch1 = 0 ∧
    (⟨⟨1000, 150, 70, 80, 90⟩, .Step3, 40, 500, 0, 40, 3⟩ :
        MotorController).commutate.pwm.duty_ch2 = 0 ∧
    (⟨⟨1000, 150, 70, 80, 90⟩, .Step3, 40, 500, 0, 40, 3⟩ :
        MotorController).commutate.pwm.duty_ch3 = 0 ∧
    (⟨⟨1000, 150, 70, 80, 90⟩, .Step3, 40, 500, 0, 40, 3⟩ :
        MotorController).commutate.current_step
      = (⟨⟨1000, 150, 70, 80, 90⟩, .Step3, 40, 500, 0, 40, 3⟩ :
          MotorController).current_step ∧
    (⟨⟨1000, 150, 70, 80, 90⟩, .Step3, 40, 500, 0, 40, 3⟩ :
        MotorController).commutate.motor_step_g
      = (⟨⟨1000, 150, 70, 80, 90⟩, .Step3, 40, 500, 0, 40, 3⟩ :
          MotorController).motor_step_g) :=
  ⟨by decide,
    commutate_not_running_stops
      ⟨⟨1000, 150, 70, 80, 90⟩, .Step3, 40, 500, 0, 40, 3⟩ (by decide)⟩

/-- C4: handling Stop while Running immediately — within the command
handler itself — zeroes all three channel duties via `emergency_stop`,
zeroes `target_duty`, publishes duty 0 (so `get_status().duty == 0`),
and publishes state Stopped. -/
theorem stop_while_running_immediate (c : MotorController)
    (_h : get_motor_state c.motor_state_g = MotorState.Running) :
    (c.handle_command .Stop).pwm.duty_ch1 = 0 ∧
    (c.handle_command .Stop).pwm.duty_ch2 = 0 ∧
    (c.handle_command .Stop).pwm.duty_ch3 = 0 ∧
    (c.handle_command .Stop).target_duty = 0 ∧
    (get_motor_status (c.handle_command .Stop)).duty = 0 ∧
    (get_motor_status (c.handle_command .Stop)).state = MotorState.Stopped :=
  ⟨rfl, rfl, rfl, rfl, rfl, rfl⟩

/-- Witness for C4 at a concrete Running controller with nonzero
duties. -/
theorem stop_while_running_immediate_witness :
    get_motor_state (⟨⟨1000, 150, 70, 80, 90⟩, .Step2, 40, 500, 1, 40, 2⟩ :
        MotorController).motor_state_g = MotorState.Running ∧
    (((⟨⟨1000, 150, 70, 80, 90⟩, .Step2, 40, 500, 1, 40, 2⟩ :
        MotorController).handle_command .Stop).pwm.duty_ch1 = 0 ∧
    ((⟨⟨1000, 150, 70, 80, 90⟩, .Step2, 40, 500, 1, 40, 2⟩ :
        MotorController).handle_command .Stop).pwm.duty_ch2 = 0 ∧
    ((⟨⟨1000, 150, 70, 80, 90⟩, .Step2, 40, 500, 1, 40, 2⟩ :
        MotorController).handle_command .Stop).pwm.duty_ch3 = 0 ∧
    ((⟨⟨1000, 150, 70, 80, 90⟩, .Step2, 40, 500, 1, 40, 2⟩ :
        MotorController).handle_command .Stop).target_duty = 0 ∧
    (get_motor_status ((⟨⟨1000, 150, 70, 80, 90⟩, .Step2, 40, 500, 1, 40, 2⟩ :
        MotorController).handle_command .Stop)).duty = 0 ∧
    (get_motor_status ((⟨⟨1000, 150, 70, 80, 90⟩, .Step2, 40, 500, 1, 40, 2⟩ :
        MotorController).handle_command .Stop)).state = MotorState.Stopped) :=
  ⟨by decide,
    stop_while_running_immediate
      ⟨⟨1000, 150, 70, 80, 90⟩, .Step2, 40, 500, 1, 40, 2⟩ (by decide)⟩

/-- C6: handling `Start{duty}` with duty at or above 100 silently clamps
the effective duty to 100 rather than rejecting the command:
`target_duty` becomes 100 and `get_status().duty` returns 100. -/
theorem start_clamps_duty (c : MotorController) (d : Nat) (h : 100 ≤ d) :
    (c.handle_command (.Start d)).target_duty = 100 ∧
    (get_motor_status (c.handle_command (.Start d))).duty = 100 := by
  constructor <;>
    simp [MotorController.handle_command, MotorController.start,
      get_motor_status, min_eq_right h]

/-- Witness for C6 at `Start{duty=150}` on a concrete Stopped
controller. -/
theorem start_clamps_duty_witness :
    100 ≤ 150 ∧
    (((⟨⟨1000, 150, 0, 0, 0⟩, .Step0, 0, 500, 0, 0, 0⟩ :
        MotorController).handle_command (.Start 150)).target_duty = 100 ∧
    (get_motor_status ((⟨⟨1000, 150, 0, 0, 0⟩, .Step0, 0, 500, 0, 0, 0⟩ :
        MotorController).handle_command (.Start 150))).duty = 100) :=
  ⟨by decide,
    start_clamps_duty ⟨⟨1000, 150, 0, 0, 0⟩, .Step0, 0, 500, 0, 0, 0⟩ 150
      (by decide)⟩

/-- C7: handling `SetSpeed{duty}` while Running updates `target_duty`
and the published duty to `min(duty, 100)` and leaves the step
unchanged: both the internal `current_step` and the published step are
exactly what they were before the command. -/
theorem set_speed_keeps_step (c : MotorController) (d : Nat)
    (_h : get_motor_state c.motor_state_g = MotorState.Running) :
    (c.handle_command (.SetSpeed d)).target_duty = min d 100 ∧
    (get_motor_status (c.handle_command (.SetSpeed d))).duty = min d 100 ∧
    (c.handle_command (.SetSpeed d)).current_step = c.current_step ∧
    (c.handle_command (.SetSpeed d)).motor_step_g = c.motor_step_g ∧
    (get_motor_status (c.handle_command (.SetSpeed d))).step
      = (get_motor_status c).step :=
  ⟨rfl, rfl, rfl, rfl, rfl⟩

/-- Witness for C7 at `SetSpeed{duty=30}` on a concrete Running
controller at step 4. -/
theorem set_speed_keeps_step_witness :
    get_motor_state (⟨⟨1000, 150, 70, 80, 90⟩, .Step4, 60, 500, 1, 60, 4⟩ :
        MotorController).motor_state_g = MotorState.Running ∧
    (((⟨⟨1000, 150, 70, 80, 90⟩, .Step4, 60, 500, 1, 60, 4⟩ :
        MotorController).handle_command (.SetSpeed 30)).target_duty
      = min 30 100 ∧
    (get_motor_status ((⟨⟨1000, 150, 70, 80, 90⟩, .Step4, 60, 500, 1, 60, 4⟩ :
        MotorController).handle_command (.SetSpeed 30))).duty = min 30 100 ∧
    ((⟨⟨1000, 150, 70, 80, 90⟩, .Step4, 60, 500, 1, 60, 4⟩ :
        MotorController).handle_command (.SetSpeed 30)).current_step
      = (⟨⟨1000, 150, 70, 80, 90⟩, .Step4, 60, 500, 1, 60, 4⟩ :
          MotorController).current_step ∧
    ((⟨⟨1000, 150, 70, 80, 90⟩, .Step4, 60, 500, 1, 60, 4⟩ :
        MotorController).handle_command (.SetSpeed 30)).motor_step_g
      = (⟨⟨1000, 150, 70, 80, 90⟩, .Step4, 60, 500, 1, 60, 4⟩ :
          MotorController).motor_step_g ∧
    (get_motor_status ((⟨⟨1000, 150, 70, 80, 90⟩, .Step4, 60, 500, 1, 60, 4⟩ :
        MotorController).handle_command (.SetSpeed 30))).step
      = (get_motor_status (⟨⟨1000, 150, 70, 80, 90⟩, .Step4, 60, 500, 1, 60, 4⟩ :
          MotorController)).step) :=
  ⟨by decide,
    set_speed_keeps_step
      ⟨⟨1000, 150, 70, 80, 90⟩, .Step4, 60, 500, 1, 60, 4⟩ 30 (by decide)⟩

/-- C8: each iteration of the motor control loop drains at most one
queued command, non-blockingly (skipping when the queue is empty), and
handles it before that iteration's `commutate` runs. -/
theorem tick_loop_drains_at_most_one (c : MotorController)
    (q : List MotorCommand) :
    (motor_control_iter c q).2 = q.tail ∧
    (motor_control_iter c q).2.length = q.length - 1 ∧
    (motor_control_iter c q).1
      = match q with
        | [] => c.commutate
        | cmd :: _ => (c.handle_command cmd).commutate := by
  cases q <;> simp [motor_control_iter]

/-- C10: `handle_command` applies the same update for a given command
regardless of the stored motor state — no command is guarded by a state
precondition.  Changing the stored state before a command never changes
the resulting PWM registers, target duty, step or published duty/step;
SetSpeed handled while Stopped publishes duty `min(duty, 100)` while
the state stays Stopped; Start handled while already Running resets the
step to 0. -/
theorem handle_command_unguarded (c : MotorController) (d g : Nat)
    (cmd : MotorCommand) :
    (({c with motor_state_g := g} :
        MotorController).handle_command cmd).target_duty
      = (c.handle_command cmd).target_duty ∧
    (({c with motor_state_g := g} :
        MotorController).handle_command cmd).current_step
      = (c.handle_command cmd).current_step ∧
    (({c with motor_state_g := g} :
        MotorController).handle_command cmd).pwm
      = (c.handle_command cmd).pwm ∧
    (({c with motor_state_g := g} :
        MotorController).handle_command cmd).motor_duty_g
      = (c.handle_command cmd).motor_duty_g ∧
    (({c with motor_state_g := g} :
        MotorController).handle_command cmd).motor_step_g
      = (c.handle_command cmd).motor_step_g ∧
    (get_motor_status (({c with motor_state_g := 0} :
        MotorController).handle_command (.SetSpeed d))).state
      = MotorState.Stopped ∧
    (get_motor_status (({c with motor_state_g := 0} :
        MotorController).handle_command (.SetSpeed d))).duty = min d 100 ∧
    (({c with motor_state_g := 1} :
        MotorController).handle_command (.Start d)).current_step
      = CommutationStep.Step0 ∧
    (({c with motor_state_g := 1} :
        MotorController).handle_command (.Start d)).motor_step_g = 0 := by
  cases cmd <;> exact ⟨rfl, rfl, rfl, rfl, rfl, rfl, rfl, rfl, rfl⟩
